import Mathlib

/-!
Shallow embedding of the hand-tracking / gesture-calibration core
(`gesture_calibrator.py`, `handtracker.py`).

Modelling conventions:
* A landmark is the `(index, x, y)` triple the tracker produces
  (`get_landmarks_list` yields integer pixel coordinates), so coordinates
  are integers and derived measurements (square roots) live in `ℝ`.
* Python floats are modelled as real numbers.
* The "attribute exists only if set" pattern (`hasattr`/`del` on
  `calibration_thresholds` and `base_hand_size`) is modelled as `Option`.
* Python `dict`s keyed by strings are modelled as association lists in
  insertion order; assignment replaces in place or appends at the end.
* UI-only side effects (frame drawing, message strings) carry no state;
  the outcome message of threshold derivation is modelled by an inductive
  result that distinguishes the failure message from the success message
  (which embeds the hand size that the Python string interpolates).
-/

set_option maxRecDepth 4000

open scoped Classical

namespace HCI

/-- A landmark as produced by the tracker: `(index, x, y)`. -/
abbrev Landmark : Type := ℕ × ℤ × ℤ

/-- Embeds `np.sqrt (dx*dx + dy*dy)` on integer coordinate differences, as used by
`_calculate_hand_size`, the pinch-distance computation and
`check_landmark_stability`. -/
noncomputable def dist2D (dx dy : ℤ) : ℝ :=
  Real.sqrt (((dx * dx + dy * dy : ℤ) : ℝ))

/-! ## Gesture calibrator (`gesture_calibrator.py`) -/

/-- The fixed step order of the calibration protocol. -/
def calibration_steps : List String :=
  ["open_hand", "fist", "pinch", "pointing", "victory"]

/-- One step's captured calibration record (the value stored in
`self.calibration_data[step_name]`). -/
structure Snapshot where
  hand_size : ℝ
  landmarks : List Landmark
  finger_states : List (String × Bool)
  timestamp : ℝ

/-- The mutable state of a `GestureCalibrator` instance.
`calibration_thresholds` and `base_hand_size` are `Option`s because the
Python attributes exist only once `_calculate_thresholds` succeeds and are
`del`eted by `reset`. -/
structure GestureCalibrator where
  current_step : ℕ
  calibration_data : List (String × Snapshot)
  is_calibrating : Bool
  calibration_complete : Bool
  calibration_thresholds : Option (List (String × ℝ))
  base_hand_size : Option ℝ

/-- A freshly constructed `GestureCalibrator`. -/
def initCalibrator : GestureCalibrator :=
  { current_step := 0
    calibration_data := []
    is_calibrating := false
    calibration_complete := false
    calibration_thresholds := none
    base_hand_size := none }

/-- Key membership in a string-keyed dict (`k in d`). -/
def dictContains (d : List (String × α)) (k : String) : Bool :=
  (d.map Prod.fst).contains k

/-- Python dict assignment `d[k] = v`: replaces the value in place when the
key is present, appends at the end otherwise (insertion-order semantics). -/
def dictInsert (d : List (String × α)) (k : String) (v : α) : List (String × α) :=
  if dictContains d k then
    d.map (fun p => if p.1 = k then (k, v) else p)
  else
    d ++ [(k, v)]

/-- Embeds `self.calibration_steps[self.current_step]`. -/
def current_gesture (c : GestureCalibrator) : String :=
  calibration_steps.getD c.current_step ""

/-- Embeds `_calculate_hand_size`: wrist (index 0) to middle-finger MCP (index 9)
distance, with the fixed fallback 100 on fewer than 10 landmarks. -/
noncomputable def calculate_hand_size (landmarks : List Landmark) : ℝ :=
  if landmarks.length < 10 then 100
  else
    let wrist := landmarks.getD 0 (0, 0, 0)
    let middle_mcp := landmarks.getD 9 (0, 0, 0)
    dist2D (wrist.2.1 - middle_mcp.2.1) (wrist.2.2 - middle_mcp.2.2)

/-- The `(name, tip index, pip index)` table of `_get_finger_states`. -/
def finger_data : List (String × ℕ × ℕ) :=
  [("thumb", 4, 3), ("index", 8, 6), ("middle", 12, 10),
   ("ring", 16, 14), ("pinky", 20, 18)]

/-- Embeds `_get_finger_states`: for each finger whose tip and pip indices are both
in range, record `tip_y < pip_y` (tip above pip = extended). -/
def get_finger_states (landmarks : List Landmark) : List (String × Bool) :=
  finger_data.filterMap (fun fd =>
    if fd.2.1 < landmarks.length ∧ fd.2.2 < landmarks.length then
      some (fd.1,
        decide ((landmarks.getD fd.2.1 (0, 0, 0)).2.2 <
                (landmarks.getD fd.2.2 (0, 0, 0)).2.2))
    else none)

/-- The step-progress record returned by `start_calibration` and the
non-terminal branch of `next_step` (the UI message string is presentation
only and is not modelled). -/
structure StepInfo where
  step : ℕ
  total_steps : ℕ
  gesture : String
deriving DecidableEq

/-- Embeds `start_calibration`: clears the snapshots, rewinds to step 0 and raises
`is_calibrating`; the derived-threshold attributes are NOT touched. -/
def start_calibration (c : GestureCalibrator) : GestureCalibrator × StepInfo :=
  let c' := { c with
    calibration_data := []
    current_step := 0
    is_calibrating := true
    calibration_complete := false }
  (c', { step := c'.current_step + 1
         total_steps := calibration_steps.length
         gesture := calibration_steps.getD c'.current_step "" })

/-- The progress record returned by `process_calibration_step`. -/
structure ProcessInfo where
  step : ℕ
  total_steps : ℕ
  gesture : String
  hand_size : ℝ
  progress : ℝ

/-- Embeds `process_calibration_step` (the frame-drawing side effect is
presentation only; the tick-count timestamp is an external input). Stores a
`Snapshot` for the current step only if none exists yet. -/
noncomputable def process_calibration_step (c : GestureCalibrator)
    (landmarks : List Landmark) (timestamp : ℝ) :
    GestureCalibrator × Option ProcessInfo :=
  if landmarks = [] ∨ c.is_calibrating = false then (c, none)
  else
    let step_name := current_gesture c
    let hand_size := calculate_hand_size landmarks
    let data' :=
      if (c.calibration_data.lookup step_name).isSome then c.calibration_data
      else c.calibration_data ++
        [(step_name,
          { hand_size := hand_size
            landmarks := landmarks
            finger_states := get_finger_states landmarks
            timestamp := timestamp })]
    ({ c with calibration_data := data' },
     some { step := c.current_step + 1
            total_steps := calibration_steps.length
            gesture := step_name
            hand_size := hand_size
            progress := ((c.current_step + 1 : ℕ) : ℝ) / (calibration_steps.length : ℝ) })

/-- The outcome message of `_calculate_thresholds`: either the literal
failure string "Calibration failed: Missing open hand data", or the success
string, which interpolates the base hand size. -/
inductive CalibMessage where
  | failed_missing_open_hand : CalibMessage
  | complete : ℝ → CalibMessage

/-- Embeds `_calculate_thresholds`: fails (state untouched) without an `open_hand`
snapshot; otherwise derives per-finger thresholds (`base_hand_size * 0.12`
for every finger key shared by the `open_hand` and `fist` finger-state
dicts), a pinch threshold (pinch distance `* 1.5` when the `pinch` snapshot
has at least 9 landmarks), and sets the `calibration_thresholds` and
`base_hand_size` attributes. -/
noncomputable def calculate_thresholds (c : GestureCalibrator) :
    GestureCalibrator × CalibMessage :=
  match c.calibration_data.lookup "open_hand" with
  | none => (c, CalibMessage.failed_missing_open_hand)
  | some open_hand_data =>
    let base_hand_size := open_hand_data.hand_size
    let thresholds1 : List (String × ℝ) :=
      match c.calibration_data.lookup "fist" with
      | none => []
      | some fist_data =>
        open_hand_data.finger_states.foldl (fun acc fp =>
          if dictContains fist_data.finger_states fp.1 then
            dictInsert acc fp.1 (base_hand_size * 0.12)
          else acc) []
    let thresholds2 : List (String × ℝ) :=
      match c.calibration_data.lookup "pinch" with
      | none => thresholds1
      | some pinch_data =>
        if 9 ≤ pinch_data.landmarks.length then
          let thumb_tip := pinch_data.landmarks.getD 4 (0, 0, 0)
          let index_tip := pinch_data.landmarks.getD 8 (0, 0, 0)
          dictInsert thresholds1 "pinch"
            (dist2D (thumb_tip.2.1 - index_tip.2.1) (thumb_tip.2.2 - index_tip.2.2) * 1.5)
        else thresholds1
    ({ c with
        calibration_thresholds := some thresholds2
        base_hand_size := some base_hand_size },
     CalibMessage.complete base_hand_size)

/-- What `next_step` returns: either the next step's progress record, or the
terminal record `{'complete': True, 'message', 'thresholds', 'base_hand_size'}`
(the latter two read back through the `hasattr` pattern, hence `Option`s). -/
inductive NextStepResult where
  | step : ℕ → ℕ → String → NextStepResult
  | complete : CalibMessage → Option (List (String × ℝ)) → Option ℝ → NextStepResult

/-- Holds exactly when the returned record carries `'complete': True`. -/
def NextStepResult.isComplete : NextStepResult → Bool
  | NextStepResult.step _ _ _ => false
  | NextStepResult.complete _ _ _ => true

/-- Embeds `next_step`: before the last step, advance `current_step`; on the last
step, drop `is_calibrating`, raise `calibration_complete`, run
`_calculate_thresholds` and return the terminal record. -/
noncomputable def next_step (c : GestureCalibrator) :
    GestureCalibrator × NextStepResult :=
  if c.current_step < calibration_steps.length - 1 then
    let c' := { c with current_step := c.current_step + 1 }
    (c', NextStepResult.step (c'.current_step + 1) calibration_steps.length
      (calibration_steps.getD c'.current_step ""))
  else
    let c1 := { c with is_calibrating := false, calibration_complete := true }
    let r := calculate_thresholds c1
    (r.1, NextStepResult.complete r.2 r.1.calibration_thresholds r.1.base_hand_size)

/-- Embeds `get_gesture_thresholds`: the attribute when set, else `None`. -/
def get_gesture_thresholds (c : GestureCalibrator) : Option (List (String × ℝ)) :=
  c.calibration_thresholds

/-- Embeds `get_base_hand_size`: the attribute when set, else the default 100. -/
noncomputable def get_base_hand_size (c : GestureCalibrator) : ℝ :=
  c.base_hand_size.getD 100

/-- Embeds `reset`: clears snapshots and flags and deletes both derived
attributes. -/
def reset (c : GestureCalibrator) : GestureCalibrator :=
  { c with
    calibration_data := []
    current_step := 0
    is_calibrating := false
    calibration_complete := false
    calibration_thresholds := none
    base_hand_size := none }

/-! ## Hand tracker (`handtracker.py`) -/

/-- One frame's extracted landmark list. -/
abbrev Frame : Type := List Landmark

/-- Embeds `self.smoothing_buffer_size = 5`. -/
def smoothing_buffer_size : ℕ := 5

/-- Embeds `deque(maxlen=5).append`: append on the right, evicting from the left
past capacity. -/
def pushBuffer (buf : List Frame) (fr : Frame) : List Frame :=
  let b := buf ++ [fr]
  if smoothing_buffer_size < b.length then b.drop (b.length - smoothing_buffer_size)
  else b

/-- The per-matching-index Euclidean displacements between two frames
(the `distances` list of `check_landmark_stability`): frames are zipped
pairwise and only pairs with equal landmark index contribute. -/
noncomputable def matchedDistances (frame1 frame2 : Frame) : List ℝ :=
  (frame1.zip frame2).filterMap (fun pq =>
    if pq.1.1 = pq.2.1 then
      some (dist2D (pq.2.2.1 - pq.1.2.1) (pq.2.2.2 - pq.1.2.2))
    else none)

/-- Embeds `check_landmark_stability(landmark_frames, threshold=10)`: needs at
least 2 frames, compares the first and last frame (equal lengths required),
and is stable iff the mean matched displacement (`np.mean(distances)`) is
strictly below the threshold; not stable when no pair contributed. -/
def check_landmark_stability (landmark_frames : List Frame) (threshold : ℝ) : Prop :=
  if landmark_frames.length < 2 then False
  else
    let frame1 := landmark_frames.headD []
    let frame2 := landmark_frames.getLastD []
    if frame1.length ≠ frame2.length then False
    else
      let distances := matchedDistances frame1 frame2
      if distances.length = 0 then False
      else distances.sum / (distances.length : ℝ) < threshold

/-- The tracker state the verified claims touch: the landmark smoothing
buffer and the stability counter. -/
structure HandTracker where
  landmark_buffer : List Frame
  hand_stability_counter : ℤ

/-- A freshly constructed `HandTracker` (empty buffer, zero counter). -/
def initTracker : HandTracker :=
  { landmark_buffer := [], hand_stability_counter := 0 }

/-- The state effect of one `get_landmarks_list` call. `none` is the
detection-failure path (`self.results` holds no hand for the index): the
counter is zeroed and the buffer is untouched. `some` is a detected hand's
extracted landmark list: it is pushed into the buffer, and once at least 3
frames are buffered the 3 most recent are checked for stability, the
counter incremented when stable and decremented floored at 0 otherwise.
The function's smoothed-landmark return value is a pure output (no state)
and is modelled separately by `smoothedLandmarks`. -/
noncomputable def get_landmarks_list (t : HandTracker) (detection : Option Frame) :
    HandTracker :=
  match detection with
  | none => { t with hand_stability_counter := 0 }
  | some current_landmarks =>
    let buf := pushBuffer t.landmark_buffer current_landmarks
    if 3 ≤ buf.length then
      let recent_frames := buf.drop (buf.length - 3)
      if check_landmark_stability recent_frames 10 then
        { landmark_buffer := buf,
          hand_stability_counter := t.hand_stability_counter + 1 }
      else
        { landmark_buffer := buf,
          hand_stability_counter := max 0 (t.hand_stability_counter - 1) }
    else
      { landmark_buffer := buf,
        hand_stability_counter := t.hand_stability_counter }

/-- A run of the tracker over a sequence of per-frame detection results. -/
noncomputable def runTracker (inputs : List (Option Frame)) : HandTracker :=
  inputs.foldl get_landmarks_list initTracker

/-- Embeds `get_hand_stability`: 0 on a zero counter, else the counter capped at
10 and scaled to 0–100. -/
noncomputable def get_hand_stability (t : HandTracker) : ℝ :=
  if t.hand_stability_counter = 0 then 0
  else ((min t.hand_stability_counter 10 : ℤ) : ℝ) / 10 * 100

/-- Embeds `reset_buffers`: clears the buffer and zeroes the counter. -/
def reset_buffers (_t : HandTracker) : HandTracker :=
  { landmark_buffer := [], hand_stability_counter := 0 }

/-- Truncation toward zero: Python's `int()` applied to a float. -/
noncomputable def pyInt (x : ℝ) : ℤ := if 0 ≤ x then ⌊x⌋ else -⌊-x⌋

/-- Embeds the smoothing weights of `get_landmarks_list`:
`np.linspace(0.3, 1.0, n)` — entry `j` is `0.3 + 0.7 * j / (n - 1)` —
renormalized to sum to 1 over the current occupancy. (For `n = 1` the
formula's `0/0 = 0` convention gives `[0.3]`, matching `linspace`; that
branch is unreachable anyway since smoothing runs only at occupancy 2+.) -/
noncomputable def smoothWeights (n : ℕ) : List ℝ :=
  let raw := (List.range n).map (fun j => (0.3 : ℝ) + 0.7 * (j : ℝ) / ((n : ℝ) - 1))
  raw.map (fun wgt => wgt / raw.sum)

/-- Embeds the weighted temporal smoothing of `get_landmarks_list` — its
pure per-frame output once at least 2 frames are buffered: for each
landmark index 0..20, the weight-normalized average of that index's
coordinates across the buffered frames that contain it, truncated to an
integer with `int()` and clamped to the frame bounds `w × h`. These
smoothed sets are returned to the caller but never stored back into the
buffer; the stability check reads the raw buffered frames. -/
noncomputable def smoothedLandmarks (buf : List Frame) (w h : ℕ) : Frame :=
  (List.range 21).map (fun i =>
    let avg_x := ((buf.zip (smoothWeights buf.length)).map (fun fw =>
      if i < fw.1.length then ((fw.1.getD i (0, 0, 0)).2.1 : ℝ) * fw.2 else 0)).sum
    let avg_y := ((buf.zip (smoothWeights buf.length)).map (fun fw =>
      if i < fw.1.length then ((fw.1.getD i (0, 0, 0)).2.2 : ℝ) * fw.2 else 0)).sum
    (i, max 0 (min ((w : ℤ) - 1) (pyInt avg_x)),
        max 0 (min ((h : ℤ) - 1) (pyInt avg_y))))

/-! ## Spec-side definitions (refinement comparisons) -/

/-- Modelled from the spec's words: "Euclidean distance between landmark 0
(wrist) and landmark 9 (middle-finger base)". Stated directly over real
coordinates, to be compared with the source-derived
`calculate_hand_size`. -/
noncomputable def specEuclideanDistance (p q : Landmark) : ℝ :=
  Real.sqrt (((p.2.1 : ℝ) - (q.2.1 : ℝ)) ^ 2 + ((p.2.2 : ℝ) - (q.2.2 : ℝ)) ^ 2)

/-! ## Concrete states used by witnesses and counterexamples -/

/-- A single-landmark frame (nonempty, but shorter than every fallback
bound). -/
def lmSmall : List Landmark := [(0, 0, 0)]

/-- A single zero landmark, the repeated frame of the C5 trace. -/
def f0C5 : Frame := [(0, 0, 0)]

/-- The same single landmark displaced by 28 pixels in x: far enough that
the raw 3-frame window is not stable, near enough that the recency-weighted
smoothed window still is. -/
def f1C5 : Frame := [(0, 28, 0)]

/-- A second, different single-landmark frame. -/
def lmSmall' : List Landmark := [(1, 2, 3)]

/-- A 9-landmark list whose thumb tip (position 4) and index tip
(position 8) are 10 pixels apart. -/
def pinchLandmarksW : List Landmark :=
  [(0, 0, 0), (1, 0, 0), (2, 0, 0), (3, 0, 0), (4, 0, 0),
   (5, 0, 0), (6, 0, 0), (7, 0, 0), (8, 10, 0)]

/-- An `open_hand` snapshot with hand size 200 and a thumb entry. -/
noncomputable def odW : Snapshot :=
  { hand_size := 200, landmarks := [], finger_states := [("thumb", true)], timestamp := 0 }

/-- A `fist` snapshot sharing the thumb entry. -/
noncomputable def fdW : Snapshot :=
  { hand_size := 100, landmarks := [], finger_states := [("thumb", false)], timestamp := 0 }

/-- A `pinch` snapshot over `pinchLandmarksW`. -/
noncomputable def pdW : Snapshot :=
  { hand_size := 100, landmarks := pinchLandmarksW, finger_states := [], timestamp := 0 }

/-- A calibrator holding `open_hand`, `fist` and `pinch` snapshots. -/
noncomputable def cW1 : GestureCalibrator :=
  { initCalibrator with
    calibration_data := [("open_hand", odW), ("fist", fdW), ("pinch", pdW)] }

/-- A calibrator on the last step with no snapshots and no stale derived
attributes. -/
def cW2 : GestureCalibrator :=
  { initCalibrator with current_step := 4, is_calibrating := true }

/-- A started calibrator (the state after `start_calibration` on a fresh
instance). -/
def cW4 : GestureCalibrator := (start_calibration initCalibrator).1

/-- One full calibration step on frame `lmSmall`: capture a snapshot, then
advance. -/
noncomputable def calibStep (c : GestureCalibrator) : GestureCalibrator :=
  (next_step (process_calibration_step c lmSmall 0).1).1

/-- Advance without capturing anything. -/
noncomputable def advanceOnly (c : GestureCalibrator) : GestureCalibrator :=
  (next_step c).1

/-- The state after one complete, successful calibration run on a fresh
instance (five captured steps, thresholds derived). -/
noncomputable def cFirstDone : GestureCalibrator :=
  calibStep (calibStep (calibStep (calibStep (calibStep (start_calibration initCalibrator).1))))

/-- A second session started after that successful run, advanced to the
last step with no snapshot captured: the stale Threshold Set from the
first run is still attached. -/
noncomputable def cStale : GestureCalibrator :=
  advanceOnly (advanceOnly (advanceOnly (advanceOnly (start_calibration cFirstDone).1)))

/-! ## Theorems -/

theorem dist2D_eq_spec (p q : Landmark) :
    dist2D (p.2.1 - q.2.1) (p.2.2 - q.2.2) = specEuclideanDistance p q := by
  unfold dist2D specEuclideanDistance
  congr 1
  push_cast
  ring

/-- C8: with fewer than 10 landmarks `_calculate_hand_size` returns the
fallback constant 100; with 10 or more it returns the Euclidean distance
between landmark 0 (wrist) and landmark 9 (middle-finger base). -/
theorem C8_hand_size_fallback_and_distance (landmarks : List Landmark) :
    (landmarks.length < 10 → calculate_hand_size landmarks = 100) ∧
    (10 ≤ landmarks.length →
      calculate_hand_size landmarks =
        specEuclideanDistance (landmarks.getD 0 (0, 0, 0)) (landmarks.getD 9 (0, 0, 0))) := by
  constructor
  · intro h
    unfold calculate_hand_size
    rw [if_pos h]
  · intro h
    unfold calculate_hand_size
    rw [if_neg (by omega)]
    exact dist2D_eq_spec _ _

/-- C9: `reset` from any state returns to the freshly constructed state:
step 0, no snapshots, both flags false, and both derived attributes
(hence the Threshold Set) absent. -/
theorem C9_reset_clears_all_state (c : GestureCalibrator) :
    reset c = initCalibrator ∧
    (reset c).current_step = 0 ∧
    get_gesture_thresholds (reset c) = none :=
  ⟨rfl, rfl, rfl⟩

/-- C10: while no calibration has completed (fresh instance, or after any
`reset`), `get_gesture_thresholds` returns `None` but `get_base_hand_size`
returns the default 100 instead of reporting absence. -/
theorem C10_defaults_before_calibration (c : GestureCalibrator) :
    get_gesture_thresholds initCalibrator = none ∧
    get_base_hand_size initCalibrator = 100 ∧
    get_gesture_thresholds (reset c) = none ∧
    get_base_hand_size (reset c) = 100 :=
  ⟨rfl, rfl, rfl, rfl⟩

/-- C5 (amended): on a frame that delivers a landmark set, the set is
pushed into the buffer; when the buffer then holds at least 3 sets the
stability of the 3 most recent *buffered raw* Landmark Sets (not their
smoothed versions, which are returned to the caller but never stored) is
evaluated and the counter incremented when stable and decremented floored
at 0 otherwise, and when it holds fewer than 3 sets the counter is left
unchanged. -/
theorem C5_per_frame_stability_update (t : HandTracker) (fr : Frame) :
    (get_landmarks_list t (some fr)).landmark_buffer = pushBuffer t.landmark_buffer fr ∧
    (get_landmarks_list t (some fr)).hand_stability_counter =
      (if 3 ≤ (pushBuffer t.landmark_buffer fr).length then
        (if check_landmark_stability
            ((pushBuffer t.landmark_buffer fr).drop
              ((pushBuffer t.landmark_buffer fr).length - 3)) 10 then
          t.hand_stability_counter + 1
        else max 0 (t.hand_stability_counter - 1))
      else t.hand_stability_counter) := by
  constructor
  · show (let buf := pushBuffer t.landmark_buffer fr;
      if 3 ≤ buf.length then
        let recent_frames := List.drop (buf.length - 3) buf;
        if check_landmark_stability recent_frames 10 then
          { landmark_buffer := buf, hand_stability_counter := t.hand_stability_counter + 1 }
        else { landmark_buffer := buf,
               hand_stability_counter := max 0 (t.hand_stability_counter - 1) }
      else ({ landmark_buffer := buf,
              hand_stability_counter := t.hand_stability_counter } : HandTracker)).landmark_buffer
      = pushBuffer t.landmark_buffer fr
    dsimp only
    split_ifs <;> rfl
  · show (let buf := pushBuffer t.landmark_buffer fr;
      if 3 ≤ buf.length then
        let recent_frames := List.drop (buf.length - 3) buf;
        if check_landmark_stability recent_frames 10 then
          { landmark_buffer := buf, hand_stability_counter := t.hand_stability_counter + 1 }
        else { landmark_buffer := buf,
               hand_stability_counter := max 0 (t.hand_stability_counter - 1) }
      else ({ landmark_buffer := buf,
              hand_stability_counter := t.hand_stability_counter } : HandTracker)).hand_stability_counter
      = _
    dsimp only
    split_ifs <;> rfl

/-- C3: from `start_calibration` the session is on `open_hand`; the first
four advances move through fist, pinch, pointing, victory in order, and
the fifth advance returns the terminal `complete` record, drops
`is_calibrating`, raises `calibration_complete`, and invokes threshold
derivation. -/
theorem C3_advance_sequence (c : GestureCalibrator) :
    (start_calibration c).2.gesture = "open_hand" ∧
    current_gesture ((start_calibration c).1) = "open_hand" ∧
    ((start_calibration c).1).current_step = 0 ∧
    (next_step ((start_calibration c).1)).2 = NextStepResult.step 2 5 "fist" ∧
    (next_step (advanceOnly ((start_calibration c).1))).2 =
      NextStepResult.step 3 5 "pinch" ∧
    (next_step (advanceOnly (advanceOnly ((start_calibration c).1)))).2 =
      NextStepResult.step 4 5 "pointing" ∧
    (next_step (advanceOnly (advanceOnly (advanceOnly ((start_calibration c).1))))).2 =
      NextStepResult.step 5 5 "victory" ∧
    (next_step (advanceOnly (advanceOnly (advanceOnly (advanceOnly
      ((start_calibration c).1)))))).2.isComplete = true ∧
    (next_step (advanceOnly (advanceOnly (advanceOnly (advanceOnly
      ((start_calibration c).1)))))).1.is_calibrating = false ∧
    (next_step (advanceOnly (advanceOnly (advanceOnly (advanceOnly
      ((start_calibration c).1)))))).1.calibration_complete = true ∧
    next_step (advanceOnly (advanceOnly (advanceOnly (advanceOnly
      ((start_calibration c).1))))) =
      ((calculate_thresholds { advanceOnly (advanceOnly (advanceOnly (advanceOnly
          ((start_calibration c).1)))) with
          is_calibrating := false, calibration_complete := true }).1,
       NextStepResult.complete
         (calculate_thresholds { advanceOnly (advanceOnly (advanceOnly (advanceOnly
            ((start_calibration c).1)))) with
            is_calibrating := false, calibration_complete := true }).2
         (calculate_thresholds { advanceOnly (advanceOnly (advanceOnly (advanceOnly
            ((start_calibration c).1)))) with
            is_calibrating := false, calibration_complete := true }).1.calibration_thresholds
         (calculate_thresholds { advanceOnly (advanceOnly (advanceOnly (advanceOnly
            ((start_calibration c).1)))) with
            is_calibrating := false, calibration_complete := true }).1.base_hand_size) :=
  ⟨rfl, rfl, rfl, rfl, rfl, rfl, rfl, rfl, rfl, rfl, rfl⟩

theorem counter_nonneg_step (t : HandTracker) (d : Option Frame)
    (h : 0 ≤ t.hand_stability_counter) :
    0 ≤ (get_landmarks_list t d).hand_stability_counter := by
  cases d with
  | none => simp [get_landmarks_list]
  | some fr =>
    show (0:ℤ) ≤ (let buf := pushBuffer t.landmark_buffer fr;
      if 3 ≤ buf.length then
        let recent_frames := List.drop (buf.length - 3) buf;
        if check_landmark_stability recent_frames 10 then
          { landmark_buffer := buf, hand_stability_counter := t.hand_stability_counter + 1 }
        else { landmark_buffer := buf,
               hand_stability_counter := max 0 (t.hand_stability_counter - 1) }
      else ({ landmark_buffer := buf,
              hand_stability_counter := t.hand_stability_counter } : HandTracker)).hand_stability_counter
    dsimp only
    split_ifs
    · show (0:ℤ) ≤ t.hand_stability_counter + 1
      omega
    · exact le_max_left _ _
    · exact h

theorem foldl_counter_nonneg (l : List (Option Frame)) :
    ∀ t : HandTracker, 0 ≤ t.hand_stability_counter →
      0 ≤ (l.foldl get_landmarks_list t).hand_stability_counter := by
  induction l with
  | nil => intro t h; simpa using h
  | cons d tl ih => intro t h; exact ih _ (counter_nonneg_step t d h)

theorem score_formula (t : HandTracker) (h : 0 ≤ t.hand_stability_counter) :
    get_hand_stability t = ((min t.hand_stability_counter 10 : ℤ) : ℝ) / 10 * 100 ∧
    0 ≤ get_hand_stability t ∧ get_hand_stability t ≤ 100 ∧
    (10 ≤ t.hand_stability_counter → get_hand_stability t = 100) := by
  unfold get_hand_stability
  rcases eq_or_ne t.hand_stability_counter 0 with h0 | h0
  · rw [if_pos h0, h0]
    norm_num
  · rw [if_neg h0]
    have hmin0 : (0:ℤ) ≤ min t.hand_stability_counter 10 := le_min h (by norm_num)
    have hmin10 : min t.hand_stability_counter 10 ≤ 10 := min_le_right _ _
    have hc0 : (0:ℝ) ≤ ((min t.hand_stability_counter 10 : ℤ) : ℝ) := by exact_mod_cast hmin0
    have hc10 : ((min t.hand_stability_counter 10 : ℤ) : ℝ) ≤ 10 := by exact_mod_cast hmin10
    refine ⟨rfl, by nlinarith, by nlinarith, ?_⟩
    intro h10
    rw [min_eq_right h10]
    norm_num

/-- C6: after any sequence of per-frame updates the Stability Counter is
non-negative, and the exposed stability score equals
`min(counter, 10) / 10 * 100`, lies in 0–100, and is exactly 100 whenever
the counter has reached 10 (as after 10 consecutive stable evaluations). -/
theorem C6_stability_counter_and_score (inputs : List (Option Frame)) :
    0 ≤ (runTracker inputs).hand_stability_counter ∧
    get_hand_stability (runTracker inputs) =
      ((min (runTracker inputs).hand_stability_counter 10 : ℤ) : ℝ) / 10 * 100 ∧
    0 ≤ get_hand_stability (runTracker inputs) ∧
    get_hand_stability (runTracker inputs) ≤ 100 ∧
    (10 ≤ (runTracker inputs).hand_stability_counter →
      get_hand_stability (runTracker inputs) = 100) := by
  have hn : 0 ≤ (runTracker inputs).hand_stability_counter :=
    foldl_counter_nonneg inputs initTracker (le_refl 0)
  obtain ⟨h1, h2, h3, h4⟩ := score_formula (runTracker inputs) hn
  exact ⟨hn, h1, h2, h3, h4⟩

theorem dist2D_zero : dist2D 0 0 = 0 := by
  unfold dist2D
  norm_num

theorem matchedDistances_self (f : Frame) :
    matchedDistances f f = f.map (fun _ => (0:ℝ)) := by
  induction f with
  | nil => rfl
  | cons a tl ih =>
    show ((a, a) :: tl.zip tl).filterMap _ = _
    rw [List.filterMap_cons]
    simp only [if_pos rfl, sub_self, dist2D_zero]
    rw [show (tl.zip tl).filterMap _ = matchedDistances tl tl from rfl, ih]
    rfl

theorem matchedDistances_all (l : List (Landmark × Landmark))
    (him : ∀ pq ∈ l, pq.1.1 = pq.2.1) :
    l.filterMap (fun pq =>
      if pq.1.1 = pq.2.1 then
        some (dist2D (pq.2.2.1 - pq.1.2.1) (pq.2.2.2 - pq.1.2.2))
      else none) =
    l.map (fun pq => dist2D (pq.2.2.1 - pq.1.2.1) (pq.2.2.2 - pq.1.2.2)) := by
  induction l with
  | nil => rfl
  | cons p tl ih =>
    rw [List.filterMap_cons, if_pos (him p (List.mem_cons_self _ _)), List.map_cons,
      ih (fun q hq => him q (List.mem_cons_of_mem _ hq))]

theorem sum_ge_of_forall_gt (threshold : ℝ) :
    ∀ l : List ℝ, (∀ x ∈ l, threshold < x) → threshold * l.length ≤ l.sum := by
  intro l
  induction l with
  | nil => simp
  | cons a tl ih =>
    intro h
    have ha := h a (List.mem_cons_self _ _)
    have ht := ih (fun x hx => h x (List.mem_cons_of_mem _ hx))
    simp only [List.sum_cons, List.length_cons]
    push_cast
    nlinarith

/-- C7: the stability predicate rejects windows of fewer than 2 frames; on
2 or more frames whose first and last have equal length and at least one
matching-index pair, it is stable exactly when the mean per-matching-index
displacement between first and last frame is strictly below the threshold;
hence two identical nonempty frames are stable for every positive
threshold, and two index-aligned frames with every point displaced by more
than the threshold are not stable. -/
theorem C7_stability_predicate :
    (∀ (frames : List Frame) (threshold : ℝ),
      frames.length < 2 → ¬ check_landmark_stability frames threshold) ∧
    (∀ (frames : List Frame) (threshold : ℝ),
      2 ≤ frames.length →
      (frames.headD []).length = (frames.getLastD []).length →
      matchedDistances (frames.headD []) (frames.getLastD []) ≠ [] →
      (check_landmark_stability frames threshold ↔
        (matchedDistances (frames.headD []) (frames.getLastD [])).sum /
          ((matchedDistances (frames.headD []) (frames.getLastD [])).length : ℝ) <
          threshold)) ∧
    (∀ (f : Frame) (threshold : ℝ), f ≠ [] → 0 < threshold →
      check_landmark_stability [f, f] threshold) ∧
    (∀ (f1 f2 : Frame) (threshold : ℝ), f1 ≠ [] → f1.length = f2.length →
      (∀ pq ∈ f1.zip f2, pq.1.1 = pq.2.1) →
      (∀ pq ∈ f1.zip f2,
        threshold < dist2D (pq.2.2.1 - pq.1.2.1) (pq.2.2.2 - pq.1.2.2)) →
      ¬ check_landmark_stability [f1, f2] threshold) := by
  have hforma : ∀ (frames : List Frame) (threshold : ℝ), 2 ≤ frames.length →
      (frames.headD []).length = (frames.getLastD []).length →
      matchedDistances (frames.headD []) (frames.getLastD []) ≠ [] →
      (check_landmark_stability frames threshold ↔
        (matchedDistances (frames.headD []) (frames.getLastD [])).sum /
          ((matchedDistances (frames.headD []) (frames.getLastD [])).length : ℝ) <
          threshold) := by
    intro frames threshold h2 hlen hne
    unfold check_landmark_stability
    dsimp only
    rw [if_neg (by omega), if_neg (by simp only [ne_eq, not_not]; exact hlen),
      if_neg (by simpa [List.length_eq_zero] using hne)]
  refine ⟨?_, hforma, ?_, ?_⟩
  · intro frames threshold h hc
    unfold check_landmark_stability at hc
    rw [if_pos h] at hc
    exact hc
  · intro f threshold hf hθ
    have hzip : ([f, f].headD []) = f := rfl
    have hne : matchedDistances f f ≠ [] := by
      rw [matchedDistances_self]
      simpa using hf
    rw [hforma [f, f] threshold (by simp) rfl hne]
    show (matchedDistances f f).sum / ((matchedDistances f f).length : ℝ) < threshold
    rw [matchedDistances_self]
    simpa using hθ
  · intro f1 f2 threshold hf1 hlen him hgt
    have hmap : matchedDistances f1 f2 =
        (f1.zip f2).map (fun pq => dist2D (pq.2.2.1 - pq.1.2.1) (pq.2.2.2 - pq.1.2.2)) :=
      matchedDistances_all (f1.zip f2) him
    have hzlen : (f1.zip f2).length = f1.length := by
      rw [List.length_zip, hlen, min_self]
    have hzpos : 0 < (f1.zip f2).length := by
      rw [hzlen]
      exact List.length_pos.mpr hf1
    have hne : matchedDistances f1 f2 ≠ [] := by
      rw [hmap, ← List.length_pos, List.length_map]
      exact hzpos
    rw [hforma [f1, f2] threshold (by simp) hlen hne]
    show ¬ ((matchedDistances f1 f2).sum / ((matchedDistances f1 f2).length : ℝ) < threshold)
    have hall : ∀ x ∈ matchedDistances f1 f2, threshold < x := by
      rw [hmap]
      intro x hx
      obtain ⟨pq, hpq, hpqx⟩ := List.mem_map.mp hx
      rw [← hpqx]
      exact hgt pq hpq
    have hlt : threshold < (matchedDistances f1 f2).sum /
        ((matchedDistances f1 f2).length : ℝ) := by
      rw [lt_div_iff₀ (by exact_mod_cast (List.length_pos.mpr hne))]
      obtain ⟨a, tl, hcons⟩ := List.exists_cons_of_ne_nil hne
      have ha := hall a (by rw [hcons]; exact List.mem_cons_self _ _)
      have ht := sum_ge_of_forall_gt threshold tl
        (fun x hx => hall x (by rw [hcons]; exact List.mem_cons_of_mem _ hx))
      rw [hcons]
      simp only [List.sum_cons, List.length_cons]
      push_cast
      nlinarith
    exact fun hcon => absurd hcon (not_lt.mpr (le_of_lt hlt))

theorem dictContains_iff {α : Type} (d : List (String × α)) (k : String) :
    dictContains d k = true ↔ k ∈ d.map Prod.fst := by
  unfold dictContains
  simp [List.contains, List.elem_iff]

theorem lookup_cons_eq {α : Type} (a k : String) (b : α) (tl : List (String × α)) :
    ((a, b) :: tl).lookup k = if k = a then some b else tl.lookup k := by
  rw [List.lookup_cons]
  by_cases h : k = a
  · rw [show (k == a) = true from beq_iff_eq.mpr h, if_pos h]
  · rw [show (k == a) = false from beq_eq_false_iff_ne.mpr h, if_neg h]

theorem lookup_eq_none_of_not_mem {α : Type} (k : String) :
    ∀ d : List (String × α), k ∉ d.map Prod.fst → d.lookup k = none := by
  intro d
  induction d with
  | nil => intro _; rfl
  | cons p tl ih =>
    intro h
    obtain ⟨a, b⟩ := p
    simp only [List.map_cons, List.mem_cons, not_or] at h
    obtain ⟨h1, h2⟩ := h
    rw [List.lookup_cons]
    simp only [beq_eq_false_iff_ne.mpr h1]
    exact ih h2

theorem lookup_append_of_none {α : Type} (k : String) (e : List (String × α)) :
    ∀ d : List (String × α), d.lookup k = none → (d ++ e).lookup k = e.lookup k := by
  intro d
  induction d with
  | nil => intro _; rfl
  | cons p tl ih =>
    intro h
    obtain ⟨a, b⟩ := p
    rw [List.cons_append, List.lookup_cons]
    rw [List.lookup_cons] at h
    cases hba : (k == a) with
    | true => rw [hba] at h; simp at h
    | false => rw [hba] at h; simp only []; exact ih h

theorem lookup_all_values {α : Type} (k : String) (v : α) :
    ∀ d : List (String × α), (∀ p ∈ d, p.2 = v) → k ∈ d.map Prod.fst →
      d.lookup k = some v := by
  intro d
  induction d with
  | nil => intro _ h; simp at h
  | cons p tl ih =>
    intro hv hk
    obtain ⟨a, b⟩ := p
    rw [List.lookup_cons]
    cases hba : (k == a) with
    | true =>
      simp only []
      have hb : b = v := hv (a, b) (List.mem_cons_self _ _)
      rw [hb]
    | false =>
      simp only []
      have hk' : k ∈ tl.map Prod.fst := by
        simp only [List.map_cons, List.mem_cons] at hk
        rcases hk with h1 | h2
        · exact absurd h1 (beq_eq_false_iff_ne.mp hba)
        · exact h2
      exact ih (fun q hq => hv q (List.mem_cons_of_mem _ hq)) hk'

theorem dictInsert_values {α : Type} (v : α) (k : String) (d : List (String × α))
    (h : ∀ p ∈ d, p.2 = v) : ∀ p ∈ dictInsert d k v, p.2 = v := by
  unfold dictInsert
  split_ifs with hc
  · intro p hp
    obtain ⟨q, hq, hqe⟩ := List.mem_map.mp hp
    by_cases hq1 : q.1 = k
    · rw [← hqe, if_pos hq1]
    · rw [← hqe, if_neg hq1]
      exact h q hq
  · intro p hp
    rcases List.mem_append.mp hp with h1 | h2
    · exact h p h1
    · simp only [List.mem_singleton] at h2
      rw [h2]

theorem mem_keys_dictInsert_self {α : Type} (k : String) (v : α)
    (d : List (String × α)) : k ∈ (dictInsert d k v).map Prod.fst := by
  unfold dictInsert
  split_ifs with hc
  · have hk : k ∈ d.map Prod.fst := (dictContains_iff d k).mp hc
    obtain ⟨q, hq, hq1⟩ := List.mem_map.mp hk
    exact List.mem_map.mpr ⟨(fun p => if p.1 = k then (k, v) else p) q,
      List.mem_map_of_mem _ hq, by simp [hq1]⟩
  · simp

theorem mem_keys_dictInsert_mono {α : Type} (k k' : String) (v : α)
    (d : List (String × α)) (h : k' ∈ d.map Prod.fst) :
    k' ∈ (dictInsert d k v).map Prod.fst := by
  unfold dictInsert
  split_ifs with hc
  · obtain ⟨q, hq, hq1⟩ := List.mem_map.mp h
    refine List.mem_map.mpr ⟨(fun p => if p.1 = k then (k, v) else p) q,
      List.mem_map_of_mem _ hq, ?_⟩
    show (if q.1 = k then (k, v) else q).1 = k'
    by_cases hqk : q.1 = k
    · rw [if_pos hqk]
      rw [← hq1, hqk]
    · rw [if_neg hqk]
      exact hq1
  · simp [h]

theorem lookup_map_assign {α : Type} (k : String) (v : α) :
    ∀ d : List (String × α), k ∈ d.map Prod.fst →
      (d.map (fun p => if p.1 = k then (k, v) else p)).lookup k = some v := by
  intro d
  induction d with
  | nil => intro h; simp at h
  | cons p tl ih =>
    intro h
    obtain ⟨a, b⟩ := p
    by_cases hak : a = k
    · subst hak
      simp [List.lookup_cons_self]
    · simp only [List.map_cons]
      rw [if_neg hak, List.lookup_cons]
      have hba : (k == a) = false := beq_eq_false_iff_ne.mpr (fun hx => hak hx.symm)
      rw [hba]
      apply ih
      simp only [List.map_cons, List.mem_cons] at h
      rcases h with h1 | h2
      · exact absurd h1.symm hak
      · exact h2

theorem lookup_dictInsert_self {α : Type} (k : String) (v : α)
    (d : List (String × α)) : (dictInsert d k v).lookup k = some v := by
  unfold dictInsert
  split_ifs with hc
  · exact lookup_map_assign k v d ((dictContains_iff d k).mp hc)
  · have hnm : k ∉ d.map Prod.fst := fun hm => hc ((dictContains_iff d k).mpr hm)
    rw [lookup_append_of_none k _ d (lookup_eq_none_of_not_mem k d hnm)]
    simp [List.lookup_cons_self]

theorem lookup_map_assign_ne {α : Type} (k k' : String) (v : α) (hne : k' ≠ k) :
    ∀ d : List (String × α),
      (d.map (fun p => if p.1 = k then (k, v) else p)).lookup k' = d.lookup k' := by
  intro d
  induction d with
  | nil => rfl
  | cons p tl ih =>
    obtain ⟨a, b⟩ := p
    simp only [List.map_cons]
    by_cases hak : a = k
    · subst hak
      rw [if_pos rfl, lookup_cons_eq, lookup_cons_eq, if_neg hne, if_neg hne]
      exact ih
    · rw [if_neg hak, lookup_cons_eq, lookup_cons_eq]
      split_ifs with h
      · rfl
      · exact ih

theorem lookup_append_singleton_ne {α : Type} (k k' : String) (v : α)
    (hne : k' ≠ k) : ∀ d : List (String × α),
      (d ++ [(k, v)]).lookup k' = d.lookup k' := by
  intro d
  induction d with
  | nil =>
    rw [List.nil_append, lookup_cons_eq, if_neg hne]
  | cons p tl ih =>
    obtain ⟨a, b⟩ := p
    rw [List.cons_append, lookup_cons_eq, lookup_cons_eq]
    split_ifs with h
    · rfl
    · exact ih

theorem lookup_dictInsert_ne {α : Type} (k k' : String) (v : α)
    (hne : k' ≠ k) (d : List (String × α)) :
    (dictInsert d k v).lookup k' = d.lookup k' := by
  unfold dictInsert
  split_ifs with hc
  · exact lookup_map_assign_ne k k' v hne d
  · exact lookup_append_singleton_ne k k' v hne d

/-- C4: while a step is active, the first `process_calibration_step` call
with non-empty landmarks stores that step's Snapshot (hand size, landmarks,
finger states, timestamp), and any subsequent call during the same step
leaves the whole calibrator state — hence the stored Snapshot — unchanged,
whatever its landmark input. -/
theorem C4_first_sample_wins (c : GestureCalibrator) (lms1 lms2 : List Landmark)
    (ts1 ts2 : ℝ) (h1 : lms1 ≠ []) (hcal : c.is_calibrating = true)
    (hnone : c.calibration_data.lookup (current_gesture c) = none) :
    (process_calibration_step c lms1 ts1).1.calibration_data.lookup (current_gesture c)
      = some { hand_size := calculate_hand_size lms1, landmarks := lms1,
               finger_states := get_finger_states lms1, timestamp := ts1 } ∧
    (process_calibration_step (process_calibration_step c lms1 ts1).1 lms2 ts2).1
      = (process_calibration_step c lms1 ts1).1 := by
  have hc1 : ¬ (lms1 = [] ∨ c.is_calibrating = false) := by
    rintro (hx | hx)
    · exact h1 hx
    · rw [hcal] at hx
      cases hx
  have hl1 : (process_calibration_step c lms1 ts1).1
      = { c with calibration_data := c.calibration_data ++
          [(current_gesture c,
            { hand_size := calculate_hand_size lms1, landmarks := lms1,
              finger_states := get_finger_states lms1, timestamp := ts1 })] } := by
    unfold process_calibration_step
    rw [if_neg hc1]
    dsimp only
    rw [hnone]
    rfl
  have hsome : ({ c with calibration_data := c.calibration_data ++
        [(current_gesture c,
          { hand_size := calculate_hand_size lms1, landmarks := lms1,
            finger_states := get_finger_states lms1, timestamp := ts1 })] }
          : GestureCalibrator).calibration_data.lookup (current_gesture c)
      = some { hand_size := calculate_hand_size lms1, landmarks := lms1,
               finger_states := get_finger_states lms1, timestamp := ts1 } := by
    show (c.calibration_data ++ _).lookup (current_gesture c) = _
    rw [lookup_append_of_none _ _ _ hnone, lookup_cons_eq, if_pos rfl]
  constructor
  · rw [hl1]
    exact hsome
  · rw [hl1]
    by_cases h2 : lms2 = []
    · unfold process_calibration_step
      rw [if_pos (Or.inl h2)]
    · have hccal : ({ c with calibration_data := c.calibration_data ++
            [(current_gesture c,
              { hand_size := calculate_hand_size lms1, landmarks := lms1,
                finger_states := get_finger_states lms1, timestamp := ts1 })] }
              : GestureCalibrator).is_calibrating = true := hcal
      unfold process_calibration_step
      rw [if_neg (by
        rintro (hx | hx)
        · exact h2 hx
        · rw [hccal] at hx
          cases hx)]
      dsimp only
      rw [show current_gesture { c with calibration_data := c.calibration_data ++
          [(current_gesture c,
            { hand_size := calculate_hand_size lms1, landmarks := lms1,
              finger_states := get_finger_states lms1, timestamp := ts1 })] }
          = current_gesture c from rfl]
      rw [hsome]
      rfl

theorem fold_insert_values {α : Type} (fs : List (String × Bool)) (v : α) :
    ∀ (l : List (String × Bool)) (acc : List (String × α)),
      (∀ p ∈ acc, p.2 = v) →
      ∀ p ∈ l.foldl (fun acc2 fp =>
          if dictContains fs fp.1 then dictInsert acc2 fp.1 v else acc2) acc,
        p.2 = v := by
  intro l
  induction l with
  | nil => intro acc h; simpa using h
  | cons hd tl ih =>
    intro acc h
    rw [List.foldl_cons]
    by_cases hc : dictContains fs hd.1 = true
    · rw [if_pos hc]
      exact ih _ (dictInsert_values v hd.1 acc h)
    · rw [if_neg hc]
      exact ih _ h

theorem fold_insert_keys_mono {α : Type} (fs : List (String × Bool)) (v : α) :
    ∀ (l : List (String × Bool)) (acc : List (String × α)) (k' : String),
      k' ∈ acc.map Prod.fst →
      k' ∈ (l.foldl (fun acc2 fp =>
          if dictContains fs fp.1 then dictInsert acc2 fp.1 v else acc2) acc).map
        Prod.fst := by
  intro l
  induction l with
  | nil => intro acc k' h; simpa using h
  | cons hd tl ih =>
    intro acc k' h
    rw [List.foldl_cons]
    by_cases hc : dictContains fs hd.1 = true
    · rw [if_pos hc]
      exact ih _ k' (mem_keys_dictInsert_mono hd.1 k' v acc h)
    · rw [if_neg hc]
      exact ih _ k' h

theorem fold_insert_key_mem {α : Type} (fs : List (String × Bool)) (v : α) :
    ∀ (l : List (String × Bool)) (acc : List (String × α)) (finger : String),
      finger ∈ l.map Prod.fst → dictContains fs finger = true →
      finger ∈ (l.foldl (fun acc2 fp =>
          if dictContains fs fp.1 then dictInsert acc2 fp.1 v else acc2) acc).map
        Prod.fst := by
  intro l
  induction l with
  | nil => intro acc finger h _; simp at h
  | cons hd tl ih =>
    intro acc finger hf hc
    rw [List.foldl_cons]
    have hf' : finger = hd.1 ∨ finger ∈ tl.map Prod.fst := by simpa using hf
    rcases hf' with he | hm
    · rw [← he, if_pos hc]
      exact fold_insert_keys_mono fs v tl _ finger (mem_keys_dictInsert_self finger v acc)
    · by_cases hc2 : dictContains fs hd.1 = true
      · rw [if_pos hc2]
        exact ih _ finger hm hc
      · rw [if_neg hc2]
        exact ih _ finger hm hc

/-- C1: on threshold derivation, when both `open_hand` and `fist` snapshots
exist, every finger name in the shared five-finger vocabulary that is
present in both finger-state vectors gets the extension threshold
`open_hand.hand_size * 0.12`; and when a `pinch` snapshot with at least 9
landmarks exists, the pinch threshold is the Euclidean distance between
its landmarks 4 and 8 times 1.5. -/
theorem C1_threshold_derivation (c : GestureCalibrator) (od : Snapshot)
    (hod : c.calibration_data.lookup "open_hand" = some od) :
    (∀ (fd : Snapshot) (finger : String),
      c.calibration_data.lookup "fist" = some fd →
      finger ∈ finger_data.map Prod.fst →
      dictContains od.finger_states finger = true →
      dictContains fd.finger_states finger = true →
      ((calculate_thresholds c).1.calibration_thresholds.getD []).lookup finger
        = some (od.hand_size * 0.12)) ∧
    (∀ pd : Snapshot,
      c.calibration_data.lookup "pinch" = some pd →
      9 ≤ pd.landmarks.length →
      ((calculate_thresholds c).1.calibration_thresholds.getD []).lookup "pinch"
        = some (dist2D
            ((pd.landmarks.getD 4 (0, 0, 0)).2.1 - (pd.landmarks.getD 8 (0, 0, 0)).2.1)
            ((pd.landmarks.getD 4 (0, 0, 0)).2.2 - (pd.landmarks.getD 8 (0, 0, 0)).2.2)
            * 1.5)) := by
  constructor
  · intro fd finger hfd hfive hodc hfdc
    have hfinger_mem : finger ∈ od.finger_states.map Prod.fst :=
      (dictContains_iff od.finger_states finger).mp hodc
    have hnp : finger ≠ "pinch" := by
      have h5 : finger = "thumb" ∨ finger = "index" ∨ finger = "middle" ∨
          finger = "ring" ∨ finger = "pinky" := by
        simpa [finger_data] using hfive
      rcases h5 with rfl | rfl | rfl | rfl | rfl <;> decide
    have hlook1 : (od.finger_states.foldl (fun acc2 fp =>
        if dictContains fd.finger_states fp.1 then
          dictInsert acc2 fp.1 (od.hand_size * 0.12)
        else acc2) []).lookup finger = some (od.hand_size * 0.12) := by
      apply lookup_all_values
      · exact fold_insert_values fd.finger_states (od.hand_size * 0.12)
          od.finger_states [] (by simp)
      · exact fold_insert_key_mem fd.finger_states (od.hand_size * 0.12)
          od.finger_states [] finger hfinger_mem hfdc
    unfold calculate_thresholds
    rw [hod]
    dsimp only
    rw [hfd]
    dsimp only
    rcases hp : c.calibration_data.lookup "pinch" with _ | pd
    · dsimp only
      exact hlook1
    · dsimp only
      by_cases h9 : 9 ≤ pd.landmarks.length
      · rw [if_pos h9]
        simp only [Option.getD_some]
        rw [lookup_dictInsert_ne "pinch" finger _ hnp]
        exact hlook1
      · rw [if_neg h9]
        exact hlook1
  · intro pd hpd h9
    unfold calculate_thresholds
    rw [hod]
    dsimp only
    rw [hpd]
    dsimp only
    rw [if_pos h9]
    exact lookup_dictInsert_self "pinch" _ _

theorem sqrt_hundred : Real.sqrt 100 = 10 := by
  rw [show (100 : ℝ) = 10 ^ 2 by norm_num]
  exact Real.sqrt_sq (by norm_num)

/-- Witness for C1: on a calibrator holding an `open_hand` snapshot with
hand size 200, a `fist` snapshot sharing the thumb entry, and a `pinch`
snapshot whose tips are 10 pixels apart, the derived thumb threshold is
24 and the pinch threshold is 15. -/
theorem C1_witness :
    ((calculate_thresholds cW1).1.calibration_thresholds.getD []).lookup "thumb"
      = some 24 ∧
    ((calculate_thresholds cW1).1.calibration_thresholds.getD []).lookup "pinch"
      = some 15 := by
  have hod : cW1.calibration_data.lookup "open_hand" = some odW := by
    show List.lookup "open_hand" [("open_hand", odW), ("fist", fdW), ("pinch", pdW)]
      = some odW
    rw [lookup_cons_eq, if_pos rfl]
  have hfd : cW1.calibration_data.lookup "fist" = some fdW := by
    show List.lookup "fist" [("open_hand", odW), ("fist", fdW), ("pinch", pdW)]
      = some fdW
    rw [lookup_cons_eq, if_neg (by decide), lookup_cons_eq, if_pos rfl]
  have hpd : cW1.calibration_data.lookup "pinch" = some pdW := by
    show List.lookup "pinch" [("open_hand", odW), ("fist", fdW), ("pinch", pdW)]
      = some pdW
    rw [lookup_cons_eq, if_neg (by decide), lookup_cons_eq, if_neg (by decide),
      lookup_cons_eq, if_pos rfl]
  have h := C1_threshold_derivation cW1 odW hod
  constructor
  · have h1 := h.1 fdW "thumb" hfd (by decide) (by decide) (by decide)
    rw [show (odW.hand_size * 0.12 : ℝ) = 24 by
      rw [show odW.hand_size = (200 : ℝ) from rfl]; norm_num] at h1
    exact h1
  · have h2 := h.2 pdW hpd (by decide)
    rw [show (dist2D
        ((pdW.landmarks.getD 4 (0, 0, 0)).2.1 - (pdW.landmarks.getD 8 (0, 0, 0)).2.1)
        ((pdW.landmarks.getD 4 (0, 0, 0)).2.2 - (pdW.landmarks.getD 8 (0, 0, 0)).2.2)
        * 1.5 : ℝ) = 15 by
      rw [show (pdW.landmarks.getD 4 (0, 0, 0)) = ((4 : ℕ), (0 : ℤ), (0 : ℤ)) from rfl,
        show (pdW.landmarks.getD 8 (0, 0, 0)) = ((8 : ℕ), (10 : ℤ), (0 : ℤ)) from rfl]
      unfold dist2D
      rw [show ((((0 : ℤ) - 10) * ((0 : ℤ) - 10) +
          ((0 : ℤ) - 0) * ((0 : ℤ) - 0) : ℤ) : ℝ) = 100 by norm_num]
      rw [sqrt_hundred]
      norm_num] at h2
    exact h2

/-- C2 (amended): when no Threshold Set from a prior completed calibration
persists on the instance (thresholds and base hand size attributes absent,
as on a fresh instance or after `reset`), a terminal advance with no
`open_hand` snapshot reports the named failure message and both the
returned thresholds value and later Threshold Set queries are `None`. -/
theorem C2_failure_leaves_thresholds_absent (c : GestureCalibrator)
    (hthr : c.calibration_thresholds = none)
    (hbase : c.base_hand_size = none)
    (hopen : c.calibration_data.lookup "open_hand" = none)
    (hlast : ¬ c.current_step < calibration_steps.length - 1) :
    (next_step c).2 =
      NextStepResult.complete CalibMessage.failed_missing_open_hand none none ∧
    (next_step c).1.calibration_thresholds = none ∧
    get_gesture_thresholds (next_step c).1 = none := by
  unfold next_step
  rw [if_neg hlast]
  dsimp only
  unfold calculate_thresholds
  dsimp only
  rw [hopen]
  dsimp only
  refine ⟨?_, ?_, ?_⟩
  · show NextStepResult.complete CalibMessage.failed_missing_open_hand
      c.calibration_thresholds c.base_hand_size = _
    rw [hthr, hbase]
  · show c.calibration_thresholds = none
    exact hthr
  · show c.calibration_thresholds = none
    exact hthr

/-- Witness for the amended C2 on a concrete last-step state with no
snapshots and no stale attributes. -/
theorem C2_witness :
    (next_step cW2).2 =
      NextStepResult.complete CalibMessage.failed_missing_open_hand none none ∧
    (next_step cW2).1.calibration_thresholds = none ∧
    get_gesture_thresholds (next_step cW2).1 = none :=
  C2_failure_leaves_thresholds_absent cW2 rfl rfl rfl (by decide)

/-- Counterexample to C2 as stated: after one successful calibration, a
second session in which no `open_hand` snapshot is captured still reports
the failure message on the terminal advance, yet the returned thresholds
value and the Threshold Set query yield the stale prior Threshold Set,
not `None`. -/
theorem C2_counterexample :
    (next_step cStale).2 = NextStepResult.complete
      CalibMessage.failed_missing_open_hand (some []) (some 100) ∧
    get_gesture_thresholds (next_step cStale).1 ≠ none := by
  constructor
  · rfl
  · rw [show get_gesture_thresholds (next_step cStale).1 = some [] from rfl]
    simp

/-- Witness for C4: a first `process` call on a started calibrator stores
the `open_hand` Snapshot, and a second call with a different landmark
input leaves the state unchanged. -/
theorem C4_witness :
    (process_calibration_step cW4 lmSmall 0).1.calibration_data.lookup
      (current_gesture cW4)
      = some { hand_size := calculate_hand_size lmSmall, landmarks := lmSmall,
               finger_states := get_finger_states lmSmall, timestamp := 0 } ∧
    (process_calibration_step (process_calibration_step cW4 lmSmall 0).1 lmSmall' 1).1
      = (process_calibration_step cW4 lmSmall 0).1 :=
  C4_first_sample_wins cW4 lmSmall lmSmall' 0 1 (by decide) rfl rfl

theorem pyInt_zero : pyInt 0 = 0 := by
  unfold pyInt
  rw [if_pos (le_refl (0 : ℝ))]
  exact Int.floor_zero

theorem dist2D_eval (a : ℤ) (ha : 0 ≤ a) : dist2D a 0 = (a : ℝ) := by
  unfold dist2D
  rw [show ((a * a + 0 * 0 : ℤ) : ℝ) = (a : ℝ) ^ 2 by push_cast; ring]
  exact Real.sqrt_sq (by exact_mod_cast ha)

theorem trackStep_stable (t : HandTracker) (fr : Frame)
    (h3 : 3 ≤ (pushBuffer t.landmark_buffer fr).length)
    (hs : check_landmark_stability
      ((pushBuffer t.landmark_buffer fr).drop
        ((pushBuffer t.landmark_buffer fr).length - 3)) 10) :
    get_landmarks_list t (some fr)
      = { landmark_buffer := pushBuffer t.landmark_buffer fr,
          hand_stability_counter := t.hand_stability_counter + 1 } := by
  show (let buf := pushBuffer t.landmark_buffer fr;
    if 3 ≤ buf.length then
      let recent_frames := List.drop (buf.length - 3) buf;
      if check_landmark_stability recent_frames 10 then
        { landmark_buffer := buf, hand_stability_counter := t.hand_stability_counter + 1 }
      else { landmark_buffer := buf,
             hand_stability_counter := max 0 (t.hand_stability_counter - 1) }
    else ({ landmark_buffer := buf,
            hand_stability_counter := t.hand_stability_counter } : HandTracker)) = _
  dsimp only
  rw [if_pos h3, if_pos hs]

theorem trackStep_unstable (t : HandTracker) (fr : Frame)
    (h3 : 3 ≤ (pushBuffer t.landmark_buffer fr).length)
    (hs : ¬ check_landmark_stability
      ((pushBuffer t.landmark_buffer fr).drop
        ((pushBuffer t.landmark_buffer fr).length - 3)) 10) :
    get_landmarks_list t (some fr)
      = { landmark_buffer := pushBuffer t.landmark_buffer fr,
          hand_stability_counter := max 0 (t.hand_stability_counter - 1) } := by
  show (let buf := pushBuffer t.landmark_buffer fr;
    if 3 ≤ buf.length then
      let recent_frames := List.drop (buf.length - 3) buf;
      if check_landmark_stability recent_frames 10 then
        { landmark_buffer := buf, hand_stability_counter := t.hand_stability_counter + 1 }
      else { landmark_buffer := buf,
             hand_stability_counter := max 0 (t.hand_stability_counter - 1) }
    else ({ landmark_buffer := buf,
            hand_stability_counter := t.hand_stability_counter } : HandTracker)) = _
  dsimp only
  rw [if_pos h3, if_neg hs]

theorem stable_triple_f0 : check_landmark_stability [f0C5, f0C5, f0C5] 10 := by
  have hmd : matchedDistances f0C5 f0C5 = [(0 : ℝ)] := by
    rw [matchedDistances_self]
    rfl
  unfold check_landmark_stability
  rw [if_neg (by norm_num : ¬ ([f0C5, f0C5, f0C5].length < 2))]
  dsimp only
  rw [show ([f0C5, f0C5, f0C5].headD []) = f0C5 from rfl,
    show ([f0C5, f0C5, f0C5].getLastD []) = f0C5 from rfl]
  rw [if_neg (show ¬ (f0C5.length ≠ f0C5.length) from fun hx => hx rfl)]
  rw [hmd]
  rw [if_neg (by norm_num : ¬ ([(0 : ℝ)].length = 0))]
  norm_num

theorem unstable_triple_f0f1 : ¬ check_landmark_stability [f0C5, f0C5, f1C5] 10 := by
  have hmd : matchedDistances f0C5 f1C5 = [dist2D 28 0] := by
    simp [matchedDistances, f0C5, f1C5]
  intro hc
  unfold check_landmark_stability at hc
  rw [if_neg (by norm_num : ¬ ([f0C5, f0C5, f1C5].length < 2))] at hc
  dsimp only at hc
  rw [show ([f0C5, f0C5, f1C5].headD []) = f0C5 from rfl,
    show ([f0C5, f0C5, f1C5].getLastD []) = f1C5 from rfl] at hc
  rw [if_neg (show ¬ (f0C5.length ≠ f1C5.length) from fun hx => hx rfl)] at hc
  rw [hmd] at hc
  rw [if_neg (by norm_num : ¬ ([dist2D 28 0].length = 0))] at hc
  rw [dist2D_eval 28 (by norm_num)] at hc
  norm_num at hc

theorem sum_zero_index0_x (bufw : List (Frame × ℝ)) (hb : ∀ fw ∈ bufw, fw.1 = f0C5) :
    (bufw.map (fun fw =>
      if 0 < fw.1.length then ((fw.1.getD 0 (0, 0, 0)).2.1 : ℝ) * fw.2 else 0)).sum
      = 0 := by
  apply List.sum_eq_zero
  intro x hx
  obtain ⟨fw, hfw, rfl⟩ := List.mem_map.mp hx
  rw [hb fw hfw]
  simp [f0C5]

theorem sum_zero_index0_y (bufw : List (Frame × ℝ)) (hb : ∀ fw ∈ bufw, fw.1 = f0C5) :
    (bufw.map (fun fw =>
      if 0 < fw.1.length then ((fw.1.getD 0 (0, 0, 0)).2.2 : ℝ) * fw.2 else 0)).sum
      = 0 := by
  apply List.sum_eq_zero
  intro x hx
  obtain ⟨fw, hfw, rfl⟩ := List.mem_map.mp hx
  rw [hb fw hfw]
  simp [f0C5]

theorem sum_zero_high_index_x (j : ℕ) (hj : 1 ≤ j) (bufw : List (Frame × ℝ))
    (hb : ∀ fw ∈ bufw, fw.1.length = 1) :
    (bufw.map (fun fw =>
      if j < fw.1.length then ((fw.1.getD j (0, 0, 0)).2.1 : ℝ) * fw.2 else 0)).sum
      = 0 := by
  apply List.sum_eq_zero
  intro x hx
  obtain ⟨fw, hfw, rfl⟩ := List.mem_map.mp hx
  rw [if_neg (by rw [hb fw hfw]; omega)]

theorem sum_zero_high_index_y (j : ℕ) (hj : 1 ≤ j) (bufw : List (Frame × ℝ))
    (hb : ∀ fw ∈ bufw, fw.1.length = 1) :
    (bufw.map (fun fw =>
      if j < fw.1.length then ((fw.1.getD j (0, 0, 0)).2.2 : ℝ) * fw.2 else 0)).sum
      = 0 := by
  apply List.sum_eq_zero
  intro x hx
  obtain ⟨fw, hfw, rfl⟩ := List.mem_map.mp hx
  rw [if_neg (by rw [hb fw hfw]; omega)]

theorem smoothed_all_f0 (buf : List Frame) (hb : ∀ fr ∈ buf, fr = f0C5) :
    smoothedLandmarks buf 1000 1000
      = (0, 0, 0) :: (List.range 20).map (fun i => ((i + 1 : ℕ), (0 : ℤ), (0 : ℤ))) := by
  unfold smoothedLandmarks
  rw [show (21 : ℕ) = 20 + 1 from rfl, List.range_succ_eq_map, List.map_cons, List.map_map]
  congr 1
  · dsimp only
    rw [sum_zero_index0_x (buf.zip (smoothWeights buf.length))
        (fun fw hfw => hb fw.1 (List.of_mem_zip hfw).1),
      sum_zero_index0_y (buf.zip (smoothWeights buf.length))
        (fun fw hfw => hb fw.1 (List.of_mem_zip hfw).1),
      pyInt_zero]
    norm_num
  · apply List.map_congr_left
    intro i hi
    dsimp only [Function.comp]
    rw [sum_zero_high_index_x (Nat.succ i) (Nat.succ_le_succ (Nat.zero_le i))
        (buf.zip (smoothWeights buf.length))
        (fun fw hfw => by rw [hb fw.1 (List.of_mem_zip hfw).1]; rfl),
      sum_zero_high_index_y (Nat.succ i) (Nat.succ_le_succ (Nat.zero_le i))
        (buf.zip (smoothWeights buf.length))
        (fun fw hfw => by rw [hb fw.1 (List.of_mem_zip hfw).1]; rfl),
      pyInt_zero]
    norm_num

theorem pyInt_frac_eq_eight : pyInt ((112 : ℝ) / 13) = 8 := by
  unfold pyInt
  rw [if_pos (by norm_num : (0 : ℝ) ≤ 112 / 13)]
  rw [Int.floor_eq_iff]
  constructor <;> norm_num

theorem smoothed_f0_f1 :
    smoothedLandmarks [f0C5, f0C5, f0C5, f0C5, f1C5] 1000 1000
      = (0, 8, 0) :: (List.range 20).map (fun i => ((i + 1 : ℕ), (0 : ℤ), (0 : ℤ))) := by
  have hw : smoothWeights ([f0C5, f0C5, f0C5, f0C5, f1C5] : List Frame).length
      = [(0.3 : ℝ) / 3.25, 0.475 / 3.25, 0.65 / 3.25, 0.825 / 3.25, 1 / 3.25] := by
    show smoothWeights 5 = _
    unfold smoothWeights
    rw [show List.range 5 = [0, 1, 2, 3, 4] from rfl]
    simp only [List.map_cons, List.map_nil, List.sum_cons, List.sum_nil]
    norm_num
  have hSx : (([f0C5, f0C5, f0C5, f0C5, f1C5].zip
      (smoothWeights ([f0C5, f0C5, f0C5, f0C5, f1C5] : List Frame).length)).map (fun fw =>
      if 0 < fw.1.length then ((fw.1.getD 0 (0, 0, 0)).2.1 : ℝ) * fw.2 else 0)).sum
      = (112 : ℝ) / 13 := by
    rw [hw]
    simp [f0C5, f1C5]
    norm_num
  have hSy : (([f0C5, f0C5, f0C5, f0C5, f1C5].zip
      (smoothWeights ([f0C5, f0C5, f0C5, f0C5, f1C5] : List Frame).length)).map (fun fw =>
      if 0 < fw.1.length then ((fw.1.getD 0 (0, 0, 0)).2.2 : ℝ) * fw.2 else 0)).sum
      = 0 := by
    rw [hw]
    simp [f0C5, f1C5]
  have hlen1 : ∀ fw ∈ [f0C5, f0C5, f0C5, f0C5, f1C5].zip
      (smoothWeights ([f0C5, f0C5, f0C5, f0C5, f1C5] : List Frame).length),
      fw.1.length = 1 := by
    intro fw hfw
    have hm := (List.of_mem_zip hfw).1
    simp only [List.mem_cons, List.not_mem_nil, or_false] at hm
    rcases hm with h | h | h | h | h <;> rw [h] <;> rfl
  unfold smoothedLandmarks
  rw [show (21 : ℕ) = 20 + 1 from rfl, List.range_succ_eq_map, List.map_cons, List.map_map]
  congr 1
  · dsimp only
    rw [hSx, hSy, pyInt_frac_eq_eight, pyInt_zero]
    norm_num
  · apply List.map_congr_left
    intro i hi
    dsimp only [Function.comp]
    rw [sum_zero_high_index_x (Nat.succ i) (Nat.succ_le_succ (Nat.zero_le i)) _ hlen1,
      sum_zero_high_index_y (Nat.succ i) (Nat.succ_le_succ (Nat.zero_le i)) _ hlen1,
      pyInt_zero]
    norm_num

theorem stable_smoothed_triple :
    check_landmark_stability
      [(0, 0, 0) :: (List.range 20).map (fun i => ((i + 1 : ℕ), (0 : ℤ), (0 : ℤ))),
       (0, 0, 0) :: (List.range 20).map (fun i => ((i + 1 : ℕ), (0 : ℤ), (0 : ℤ))),
       (0, 8, 0) :: (List.range 20).map (fun i => ((i + 1 : ℕ), (0 : ℤ), (0 : ℤ)))] 10 := by
  have hmd : matchedDistances
      ((0, 0, 0) :: (List.range 20).map (fun i => ((i + 1 : ℕ), (0 : ℤ), (0 : ℤ))))
      ((0, 8, 0) :: (List.range 20).map (fun i => ((i + 1 : ℕ), (0 : ℤ), (0 : ℤ))))
      = dist2D 8 0 ::
        ((List.range 20).map (fun i => ((i + 1 : ℕ), (0 : ℤ), (0 : ℤ)))).map
          (fun _ => (0 : ℝ)) := by
    unfold matchedDistances
    rw [show ((0, 0, 0) :: (List.range 20).map (fun i => ((i + 1 : ℕ), (0 : ℤ), (0 : ℤ)))).zip
        ((0, 8, 0) :: (List.range 20).map (fun i => ((i + 1 : ℕ), (0 : ℤ), (0 : ℤ))))
        = ((((0 : ℕ), (0 : ℤ), (0 : ℤ)), ((0 : ℕ), (8 : ℤ), (0 : ℤ))) : Landmark × Landmark) ::
          ((List.range 20).map (fun i => ((i + 1 : ℕ), (0 : ℤ), (0 : ℤ)))).zip
            ((List.range 20).map (fun i => ((i + 1 : ℕ), (0 : ℤ), (0 : ℤ)))) from rfl]
    rw [List.filterMap_cons, if_pos rfl]
    rw [show (((List.range 20).map (fun i => ((i + 1 : ℕ), (0 : ℤ), (0 : ℤ)))).zip
        ((List.range 20).map (fun i => ((i + 1 : ℕ), (0 : ℤ), (0 : ℤ))))).filterMap _
        = matchedDistances ((List.range 20).map (fun i => ((i + 1 : ℕ), (0 : ℤ), (0 : ℤ))))
            ((List.range 20).map (fun i => ((i + 1 : ℕ), (0 : ℤ), (0 : ℤ)))) from rfl,
      matchedDistances_self]
    norm_num
  unfold check_landmark_stability
  rw [if_neg (by norm_num)]
  dsimp only
  rw [show ([(0, 0, 0) :: (List.range 20).map (fun i => ((i + 1 : ℕ), (0 : ℤ), (0 : ℤ))),
       (0, 0, 0) :: (List.range 20).map (fun i => ((i + 1 : ℕ), (0 : ℤ), (0 : ℤ))),
       (0, 8, 0) :: (List.range 20).map (fun i => ((i + 1 : ℕ), (0 : ℤ), (0 : ℤ)))].headD [])
      = (0, 0, 0) :: (List.range 20).map (fun i => ((i + 1 : ℕ), (0 : ℤ), (0 : ℤ))) from rfl,
    show ([(0, 0, 0) :: (List.range 20).map (fun i => ((i + 1 : ℕ), (0 : ℤ), (0 : ℤ))),
       (0, 0, 0) :: (List.range 20).map (fun i => ((i + 1 : ℕ), (0 : ℤ), (0 : ℤ))),
       (0, 8, 0) :: (List.range 20).map (fun i => ((i + 1 : ℕ), (0 : ℤ), (0 : ℤ)))].getLastD [])
      = (0, 8, 0) :: (List.range 20).map (fun i => ((i + 1 : ℕ), (0 : ℤ), (0 : ℤ))) from rfl]
  rw [if_neg (show ¬ (((0, 0, 0) :: (List.range 20).map
      (fun i => ((i + 1 : ℕ), (0 : ℤ), (0 : ℤ)))).length
      ≠ ((0, 8, 0) :: (List.range 20).map
        (fun i => ((i + 1 : ℕ), (0 : ℤ), (0 : ℤ)))).length) from fun hx => hx rfl)]
  rw [hmd]
  rw [if_neg (by simp)]
  rw [dist2D_eval 8 (by norm_num), List.sum_cons,
    List.sum_eq_zero (fun x hx => by
      obtain ⟨a, _, rfl⟩ := List.mem_map.mp hx
      rfl)]
  simp only [List.length_cons, List.length_map, List.length_range]
  norm_num

/-- Counterexample to C5 as stated: a trace of four identical single-landmark
frames followed by one displaced 28 pixels. At the fifth frame the buffer
holds 5 sets, the 3 most recent *smoothed* Landmark Sets are judged stable
by the stability predicate (mean displacement 8/21 < 10), so the claim
predicts an increment from 2 to 3 — yet the code checks the raw buffered
frames (mean displacement 28) and decrements the counter to 1. -/
theorem C5_counterexample :
    check_landmark_stability
      [smoothedLandmarks [f0C5, f0C5, f0C5] 1000 1000,
       smoothedLandmarks [f0C5, f0C5, f0C5, f0C5] 1000 1000,
       smoothedLandmarks [f0C5, f0C5, f0C5, f0C5, f1C5] 1000 1000] 10 ∧
    (runTracker [some f0C5, some f0C5, some f0C5, some f0C5]).hand_stability_counter
      = 2 ∧
    (runTracker [some f0C5, some f0C5, some f0C5, some f0C5,
      some f1C5]).hand_stability_counter = 1 := by
  have e1 : get_landmarks_list initTracker (some f0C5)
      = { landmark_buffer := [f0C5], hand_stability_counter := 0 } := rfl
  have e2 : get_landmarks_list
      { landmark_buffer := [f0C5], hand_stability_counter := 0 } (some f0C5)
      = { landmark_buffer := [f0C5, f0C5], hand_stability_counter := 0 } := rfl
  have e3 : get_landmarks_list
      { landmark_buffer := [f0C5, f0C5], hand_stability_counter := 0 } (some f0C5)
      = { landmark_buffer := [f0C5, f0C5, f0C5], hand_stability_counter := 1 } := by
    rw [trackStep_stable _ _ (by decide) (by exact stable_triple_f0)]
    rfl
  have e4 : get_landmarks_list
      { landmark_buffer := [f0C5, f0C5, f0C5], hand_stability_counter := 1 } (some f0C5)
      = { landmark_buffer := [f0C5, f0C5, f0C5, f0C5], hand_stability_counter := 2 } := by
    rw [trackStep_stable _ _ (by decide) (by exact stable_triple_f0)]
    rfl
  have e5 : get_landmarks_list
      { landmark_buffer := [f0C5, f0C5, f0C5, f0C5], hand_stability_counter := 2 }
      (some f1C5)
      = { landmark_buffer := [f0C5, f0C5, f0C5, f0C5, f1C5],
          hand_stability_counter := 1 } := by
    rw [trackStep_unstable _ _ (by decide) (by exact unstable_triple_f0f1)]
    rfl
  refine ⟨?_, ?_, ?_⟩
  · rw [smoothed_all_f0 [f0C5, f0C5, f0C5] (by
        intro fr hfr
        simp only [List.mem_cons, List.not_mem_nil, or_false] at hfr
        rcases hfr with rfl | rfl | rfl <;> rfl),
      smoothed_all_f0 [f0C5, f0C5, f0C5, f0C5] (by
        intro fr hfr
        simp only [List.mem_cons, List.not_mem_nil, or_false] at hfr
        rcases hfr with rfl | rfl | rfl | rfl <;> rfl),
      smoothed_f0_f1]
    exact stable_smoothed_triple
  · unfold runTracker
    rw [List.foldl_cons, e1, List.foldl_cons, e2, List.foldl_cons, e3,
      List.foldl_cons, e4, List.foldl_nil]
  · unfold runTracker
    rw [List.foldl_cons, e1, List.foldl_cons, e2, List.foldl_cons, e3,
      List.foldl_cons, e4, List.foldl_cons, e5, List.foldl_nil]

end HCI
